import Mathlib

/-!
Verification of the financial transaction aggregation system
(`DataProcessor`, `InputHandler.data_validation`, `main`).

The Python code is shallowly embedded: dictionaries become association
lists (`AssocList'` below) with Python's `dict` semantics (lookup of the
unique key, in-place value update, insertion at the end), monetary
amounts become rationals, and a call that raises becomes an `Option`
result (`none` = exception).
-/

namespace FDP

/-- Association-list model of a Python `dict` with string keys:
`lookup` finds the (unique) binding, `modify` rewrites the value in
place, insertion of a fresh key appends at the end. -/
def dictLookup {α : Type} (d : List (String × α)) (k : String) : Option α :=
  match d with
  | [] => Option.none
  | (k', v) :: rest => if k' = k then some v else dictLookup rest k

/-- In-place update of the value stored at key `k` (Python
`d[k]["field"] += ...` on a nested dict); bindings for other keys are
untouched and the key order is preserved. -/
def dictModify {α : Type} (d : List (String × α)) (k : String) (f : α → α) :
    List (String × α) :=
  match d with
  | [] => []
  | (k', v) :: rest =>
      if k' = k then (k', f v) :: rest else (k', v) :: dictModify rest k f

theorem dictLookup_modify_self {α : Type} (d : List (String × α)) (k : String)
    (f : α → α) : dictLookup (dictModify d k f) k = (dictLookup d k).map f := by
  induction d with
  | nil => rfl
  | cons hd tl ih =>
      obtain ⟨k', v⟩ := hd
      by_cases h : k' = k
      · simp [dictModify, dictLookup, h]
      · simp [dictModify, dictLookup, h, ih]

theorem dictLookup_modify_other {α : Type} (d : List (String × α))
    (k k' : String) (f : α → α) (hne : k ≠ k') :
    dictLookup (dictModify d k f) k' = dictLookup d k' := by
  induction d with
  | nil => rfl
  | cons hd tl ih =>
      obtain ⟨k0, v⟩ := hd
      by_cases h : k0 = k
      · subst h
        simp [dictModify, dictLookup, hne]
      · simp [dictModify, dictLookup, h, ih]

theorem dictLookup_append_fresh {α : Type} (d : List (String × α))
    (k : String) (v : α) (h : dictLookup d k = Option.none) :
    dictLookup (d ++ [(k, v)]) k = some v := by
  induction d with
  | nil => simp [dictLookup]
  | cons hd tl ih =>
      obtain ⟨k0, v0⟩ := hd
      by_cases hk : k0 = k
      · simp [dictLookup, hk] at h
      · simp only [dictLookup, hk, if_false, List.cons_append] at h ⊢
        simp [dictLookup, hk, ih h]

theorem dictLookup_append_other {α : Type} (d : List (String × α))
    (k k' : String) (v : α) (hne : k ≠ k') :
    dictLookup (d ++ [(k, v)]) k' = dictLookup d k' := by
  induction d with
  | nil => simp [dictLookup, hne]
  | cons hd tl ih =>
      obtain ⟨k0, v0⟩ := hd
      by_cases hk : k0 = k'
      · simp [dictLookup, hk]
      · simp [dictLookup, hk, ih]

/-- A well-formed transaction record, as the core receives it from the
input collaborator: the seven required fields, with `Amount` already
parsed to a number (the source calls `float(transaction["Amount"])`). -/
structure Transaction where
  transaction_id : String
  account_number : String
  date : String
  transaction_type : String
  amount : ℚ
  currency : String
  description : String
  deriving Repr, DecidableEq

/-- The per-account summary dict created by `update_account_summary`:
`{"account_number": ..., "balance": 0, "total_deposits": 0,
"total_withdrawals": 0}`. -/
structure AccountSummary where
  account_number : String
  balance : ℚ
  total_deposits : ℚ
  total_withdrawals : ℚ
  deriving Repr, DecidableEq

/-- The per-type statistics dict created by
`update_transaction_statistics`: `{"total_amount": 0,
"transaction_count": 0}`. -/
structure TypeStats where
  total_amount : ℚ
  transaction_count : ℕ
  deriving Repr, DecidableEq

/-- The mutable state of a `DataProcessor` instance: the transaction
list passed to `__init__` plus the three aggregates, which start empty. -/
structure DataProcessor where
  transactions : List Transaction
  account_summaries : List (String × AccountSummary)
  suspicious_transactions : List Transaction
  transaction_statistics : List (String × TypeStats)
  deriving Repr, DecidableEq

/-- `DataProcessor.__init__(self, transactions)`: stores the list and
initializes the three aggregates empty. -/
def DataProcessor.init (transactions : List Transaction) : DataProcessor :=
  { transactions := transactions
    account_summaries := []
    suspicious_transactions := []
    transaction_statistics := [] }

/-- `DataProcessor.LARGE_TRANSACTION_THRESHOLD = 10000`. -/
def LARGE_TRANSACTION_THRESHOLD : ℚ := 10000

/-- `DataProcessor.UNCOMMON_CURRENCIES = ["XRP", "LTC"]`. -/
def UNCOMMON_CURRENCIES : List String := ["XRP", "LTC"]

/-- `update_account_summary`: creates a zeroed summary for a new
account number, then applies the deposit / withdrawal branch (a
`transfer` falls through both `if`s). -/
def update_account_summary (p : DataProcessor) (t : Transaction) :
    DataProcessor :=
  let summaries :=
    if (dictLookup p.account_summaries t.account_number).isNone then
      p.account_summaries ++
        [(t.account_number,
          { account_number := t.account_number
            balance := 0
            total_deposits := 0
            total_withdrawals := 0 })]
    else
      p.account_summaries
  let summaries2 :=
    if t.transaction_type = "deposit" then
      dictModify summaries t.account_number (fun s =>
        { s with balance := s.balance + t.amount
                 total_deposits := s.total_deposits + t.amount })
    else if t.transaction_type = "withdrawal" then
      dictModify summaries t.account_number (fun s =>
        { s with balance := s.balance - t.amount
                 total_withdrawals := s.total_withdrawals + t.amount })
    else
      summaries
  { p with account_summaries := summaries2 }

/-- `check_suspicious_transactions`: appends the record when
`amount > LARGE_TRANSACTION_THRESHOLD or currency in
UNCOMMON_CURRENCIES`. -/
def check_suspicious_transactions (p : DataProcessor) (t : Transaction) :
    DataProcessor :=
  if t.amount > LARGE_TRANSACTION_THRESHOLD ∨ t.currency ∈ UNCOMMON_CURRENCIES
  then { p with suspicious_transactions := p.suspicious_transactions ++ [t] }
  else p

/-- `update_transaction_statistics`: creates a zeroed bucket for a new
type, then unconditionally adds the amount and increments the count. -/
def update_transaction_statistics (p : DataProcessor) (t : Transaction) :
    DataProcessor :=
  let stats :=
    if (dictLookup p.transaction_statistics t.transaction_type).isNone then
      p.transaction_statistics ++
        [(t.transaction_type, { total_amount := 0, transaction_count := 0 })]
    else
      p.transaction_statistics
  { p with transaction_statistics :=
      dictModify stats t.transaction_type (fun s =>
        { s with total_amount := s.total_amount + t.amount
                 transaction_count := s.transaction_count + 1 }) }

/-- The body of the `for` loop in `process_data`: the three updates in
source order. -/
def process_record (p : DataProcessor) (t : Transaction) : DataProcessor :=
  update_transaction_statistics
    (check_suspicious_transactions (update_account_summary p t) t) t

/-- `process_data`: iterates the loop body over `self.__transactions`
(the returned dict is just the three aggregate fields of the resulting
state). -/
def process_data (p : DataProcessor) : DataProcessor :=
  p.transactions.foldl process_record p

/-- `get_average_transaction_amount`: the source indexes
`self.__transaction_statistics[transaction_type]` directly, so an
absent bucket raises `KeyError` (modelled as `none`); with the bucket
present it returns `0` when the count is `0` and the quotient
otherwise. -/
def get_average_transaction_amount (p : DataProcessor)
    (transaction_type : String) : Option ℚ :=
  match dictLookup p.transaction_statistics transaction_type with
  | Option.none => Option.none
  | some s =>
      some (if s.transaction_count = 0 then 0
            else s.total_amount / (s.transaction_count : ℚ))

/-- A Python value as it can appear in a parsed CSV/JSON record:
a string, a number, or something else (e.g. `None`, a list), which
`float()` rejects with a `TypeError`. -/
inductive PyVal where
  | str : String → PyVal
  | num : ℚ → PyVal
  | other : PyVal
  deriving Repr, DecidableEq

/-- One element of the list handed to `data_validation`: either a dict
(an association list of string keys to values) or a non-dict, which
fails the `isinstance(transaction, dict)` check. -/
inductive RawEntry where
  | dict : List (String × PyVal) → RawEntry
  | nondict : RawEntry
  deriving Repr, DecidableEq

/-- Digits of a nonempty decimal string, as a natural number. -/
def digitsToNat (l : List Char) : Option ℕ :=
  if l ≠ [] ∧ l.all Char.isDigit then
    some (l.foldl (fun n c => 10 * n + (c.toNat - 48)) 0)
  else
    Option.none

/-- Python `float(s)` on the decimal literals that occur in this data
set: an optional minus sign, digits, an optional fractional part;
anything else fails (`ValueError`). -/
def parseDecimal (s : String) : Option ℚ :=
  let chars := s.toList
  let signed : ℚ × List Char :=
    match chars with
    | '-' :: rest => (-1, rest)
    | _ => (1, chars)
  match (signed.2).splitOn '.' with
  | [intPart] => (digitsToNat intPart).map (fun n => signed.1 * (n : ℚ))
  | [intPart, fracPart] =>
      match digitsToNat intPart, digitsToNat fracPart with
      | some n, some f =>
          some (signed.1 * ((n : ℚ) + (f : ℚ) / ((10 : ℚ) ^ fracPart.length)))
      | _, _ => Option.none
  | _ => Option.none

/-- Python `float(v)`: numbers pass through, strings are parsed,
anything else raises (`TypeError`), modelled as `none`. -/
def pyFloat (v : PyVal) : Option ℚ :=
  match v with
  | PyVal.num q => some q
  | PyVal.str s => parseDecimal s
  | PyVal.other => Option.none

/-- `kvs[k]` for a key known to be present (every use below is guarded
by the required-keys check, so the `other` default is never reached). -/
def pyGet (kvs : List (String × PyVal)) (k : String) : PyVal :=
  (dictLookup kvs k).getD PyVal.other

/-- Python `v in types` for a set of strings: a non-string value is
never a member. -/
def pyStrMem (v : PyVal) (types : List String) : Bool :=
  match v with
  | PyVal.str s => s ∈ types
  | _ => false

/-- `InputHandler.VALIDATION_RULES`. -/
structure ValidationRules where
  required_keys : List String
  valid_transaction_types : List String

/-- The class-level rules: the seven required keys and the three valid
transaction types. -/
def VALIDATION_RULES : ValidationRules :=
  { required_keys :=
      ["Transaction ID", "Account number", "Date", "Transaction type",
       "Amount", "Currency", "Description"]
    valid_transaction_types := ["deposit", "withdrawal", "transfer"] }

/-- `InputHandler.data_validation`, mirroring the source loop: each
`continue` drops the record, the final `append` keeps it; the checks
run in source order (dict shape and required keys, then
`float(transaction["Amount"])` with `ValueError`/`TypeError` caught,
then the non-negativity test, then the transaction-type membership). -/
def data_validation (transactions : List RawEntry) (rules : ValidationRules) :
    List RawEntry :=
  match transactions with
  | [] => []
  | transaction :: rest =>
      let valid_rest := data_validation rest rules
      match transaction with
      | RawEntry.nondict => valid_rest
      | RawEntry.dict kvs =>
          if ¬ rules.required_keys.all (fun k => (dictLookup kvs k).isSome) then
            valid_rest
          else
            match pyFloat (pyGet kvs "Amount") with
            | Option.none => valid_rest
            | some amount =>
                if amount < 0 then valid_rest
                else if ¬ pyStrMem (pyGet kvs "Transaction type")
                          rules.valid_transaction_types then
                  valid_rest
                else
                  transaction :: valid_rest

/-- Modelled from the spec (the claim's acceptance condition, stated
directly): a record is kept iff it is a dictionary containing all seven
required keys, its `Amount` parses as a non-negative number, and its
`Transaction type` is one of the three valid types. -/
def isValidRecordSpec (e : RawEntry) : Bool :=
  match e with
  | RawEntry.nondict => false
  | RawEntry.dict kvs =>
      VALIDATION_RULES.required_keys.all (fun k => (dictLookup kvs k).isSome)
      && (match pyFloat (pyGet kvs "Amount") with
          | some a => decide (0 ≤ a)
          | Option.none => false)
      && pyStrMem (pyGet kvs "Transaction type")
           VALIDATION_RULES.valid_transaction_types

/-- The parameter names of `DataProcessor.__init__` after `self`. -/
def dataProcessorInitParams : List String := ["transactions"]

/-- The keyword arguments `main` passes to `DataProcessor(...)` beyond
the positional `transactions`. -/
def mainDataProcessorKwargs : List String :=
  ["logging_level", "logging_format", "log_file"]

/-- Python call binding: a call with `positionalCount` positional
arguments and the given keyword-argument names succeeds exactly when
the positionals fit and every keyword names a remaining parameter
(otherwise `TypeError`). -/
def pyCallBindsKwargs (params : List String) (positionalCount : ℕ)
    (kwargs : List String) : Bool :=
  positionalCount ≤ params.length
    && kwargs.all (fun k => k ∈ params.drop positionalCount)

/-- Whether the `DataProcessor(...)` construction in `main` binds. -/
def mainDataProcessorCallOk : Bool :=
  pyCallBindsKwargs dataProcessorInitParams 1 mainDataProcessorKwargs

/-- The `total_amount` of a type's statistics bucket, `0` when the
bucket does not exist yet. -/
def statTotal (d : List (String × TypeStats)) (ty : String) : ℚ :=
  ((dictLookup d ty).map TypeStats.total_amount).getD 0

/-- The `transaction_count` of a type's statistics bucket, `0` when the
bucket does not exist yet. -/
def statCount (d : List (String × TypeStats)) (ty : String) : ℕ :=
  ((dictLookup d ty).map TypeStats.transaction_count).getD 0

/-- The suspicion predicate of `check_suspicious_transactions`. -/
def isSuspicious (t : Transaction) : Bool :=
  decide (t.amount > LARGE_TRANSACTION_THRESHOLD)
    || decide (t.currency ∈ UNCOMMON_CURRENCIES)

/-- The account-summary invariant of the spec, over a whole summaries
dict. -/
def summariesInvariant (d : List (String × AccountSummary)) : Prop :=
  ∀ acct s, dictLookup d acct = some s →
    s.balance = s.total_deposits - s.total_withdrawals

/-- The records of a batch that the suspicion rule flags, in input
order. -/
def suspiciousOf (ts : List Transaction) : List Transaction :=
  ts.filter (fun t => isSuspicious t)

/-- Sum of the amounts of a batch's records of one type. -/
def sumAmounts (ts : List Transaction) (ty : String) : ℚ :=
  ((ts.filter (fun t => t.transaction_type = ty)).map Transaction.amount).sum

/-- Number of a batch's records of one type. -/
def countType (ts : List Transaction) (ty : String) : ℕ :=
  (ts.filter (fun t => t.transaction_type = ty)).length

/-- The zeroed summary `update_account_summary` creates for a new
account number. -/
def zeroSummary (k : String) : AccountSummary :=
  { account_number := k, balance := 0, total_deposits := 0
    total_withdrawals := 0 }

/-- A sample well-formed transfer record (used to instantiate
universally quantified theorems). -/
def sampleTransfer : Transaction :=
  { transaction_id := "1", account_number := "1001", date := "2023-03-01"
    transaction_type := "transfer", amount := 5, currency := "CAD"
    description := "move" }

/-- A sample well-formed deposit record. -/
def sampleDeposit : Transaction :=
  { transaction_id := "2", account_number := "1001", date := "2023-03-01"
    transaction_type := "deposit", amount := 1000, currency := "CAD"
    description := "salary" }

/-- The account summary produced by processing `sampleDeposit` alone. -/
def sampleDepositSummary : AccountSummary :=
  { account_number := "1001", balance := 1000, total_deposits := 1000
    total_withdrawals := 0 }

theorem dictLookup_append_of_some {α : Type} (d l : List (String × α))
    (k : String) (v : α) (h : dictLookup d k = some v) :
    dictLookup (d ++ l) k = some v := by
  induction d with
  | nil => simp [dictLookup] at h
  | cons hd tl ih =>
      obtain ⟨k0, v0⟩ := hd
      by_cases hk : k0 = k
      · simp_all [dictLookup]
      · simp only [dictLookup, hk, if_false, List.cons_append] at h ⊢
        exact ih h

theorem dictLookup_append_single_inv {α : Type} (d : List (String × α))
    (k acct : String) (v s : α)
    (h : dictLookup (d ++ [(k, v)]) acct = some s) :
    dictLookup d acct = some s ∨ (acct = k ∧ s = v) := by
  induction d with
  | nil =>
      simp only [List.nil_append, dictLookup] at h
      by_cases hk : k = acct
      · simp only [hk, if_true] at h
        right
        exact ⟨hk.symm, (Option.some_injective _ h).symm⟩
      · simp [hk, dictLookup] at h
  | cons hd tl ih =>
      obtain ⟨k0, v0⟩ := hd
      by_cases hk : k0 = acct
      · simp_all [dictLookup]
      · simp only [List.cons_append, dictLookup, hk, if_false] at h ⊢
        exact ih h

theorem css_account_summaries (p : DataProcessor) (t : Transaction) :
    (check_suspicious_transactions p t).account_summaries =
      p.account_summaries := by
  unfold check_suspicious_transactions
  split <;> rfl

theorem css_transaction_statistics (p : DataProcessor) (t : Transaction) :
    (check_suspicious_transactions p t).transaction_statistics =
      p.transaction_statistics := by
  unfold check_suspicious_transactions
  split <;> rfl

theorem css_transactions (p : DataProcessor) (t : Transaction) :
    (check_suspicious_transactions p t).transactions = p.transactions := by
  unfold check_suspicious_transactions
  split <;> rfl

theorem uts_account_summaries (p : DataProcessor) (t : Transaction) :
    (update_transaction_statistics p t).account_summaries =
      p.account_summaries := rfl

theorem uts_suspicious (p : DataProcessor) (t : Transaction) :
    (update_transaction_statistics p t).suspicious_transactions =
      p.suspicious_transactions := rfl

theorem uts_transactions (p : DataProcessor) (t : Transaction) :
    (update_transaction_statistics p t).transactions = p.transactions := rfl

theorem uas_suspicious (p : DataProcessor) (t : Transaction) :
    (update_account_summary p t).suspicious_transactions =
      p.suspicious_transactions := rfl

theorem uas_transaction_statistics (p : DataProcessor) (t : Transaction) :
    (update_account_summary p t).transaction_statistics =
      p.transaction_statistics := rfl

theorem uas_transactions (p : DataProcessor) (t : Transaction) :
    (update_account_summary p t).transactions = p.transactions := rfl

theorem process_record_transactions (p : DataProcessor) (t : Transaction) :
    (process_record p t).transactions = p.transactions := by
  unfold process_record
  rw [uts_transactions, css_transactions, uas_transactions]

theorem foldl_process_record_transactions (ts : List Transaction)
    (p : DataProcessor) :
    (ts.foldl process_record p).transactions = p.transactions := by
  induction ts generalizing p with
  | nil => rfl
  | cons hd tl ih => rw [List.foldl_cons, ih, process_record_transactions]

/-- After `update_transaction_statistics`, the record's type bucket
exists and holds the previous totals plus this record's contribution. -/
theorem uts_bucket (p : DataProcessor) (t : Transaction) :
    dictLookup (update_transaction_statistics p t).transaction_statistics
        t.transaction_type =
      some { total_amount :=
               statTotal p.transaction_statistics t.transaction_type + t.amount
             transaction_count :=
               statCount p.transaction_statistics t.transaction_type + 1 } := by
  unfold update_transaction_statistics statTotal statCount
  cases h : dictLookup p.transaction_statistics t.transaction_type with
  | none =>
      simp only [h, Option.isNone_none, if_true]
      rw [dictLookup_modify_self, dictLookup_append_fresh _ _ _ h]
      simp
  | some s =>
      simp [h, dictLookup_modify_self]

/-- `update_transaction_statistics` does not touch other types'
buckets. -/
theorem uts_bucket_other (p : DataProcessor) (t : Transaction) (ty : String)
    (hne : t.transaction_type ≠ ty) :
    dictLookup (update_transaction_statistics p t).transaction_statistics ty =
      dictLookup p.transaction_statistics ty := by
  unfold update_transaction_statistics
  by_cases h :
      (dictLookup p.transaction_statistics t.transaction_type).isNone = true
  · rw [if_pos h, dictLookup_modify_other _ _ _ _ hne,
      dictLookup_append_other _ _ _ _ hne]
  · rw [if_neg h, dictLookup_modify_other _ _ _ _ hne]

theorem pre_stats (p : DataProcessor) (t : Transaction) :
    (check_suspicious_transactions (update_account_summary p t)
        t).transaction_statistics = p.transaction_statistics := by
  rw [css_transaction_statistics, uas_transaction_statistics]

/-- The statistics bucket of the record's type after one loop
iteration. -/
theorem process_record_bucket (p : DataProcessor) (t : Transaction) :
    dictLookup (process_record p t).transaction_statistics
        t.transaction_type =
      some { total_amount :=
               statTotal p.transaction_statistics t.transaction_type + t.amount
             transaction_count :=
               statCount p.transaction_statistics t.transaction_type + 1 } := by
  unfold process_record
  rw [uts_bucket, pre_stats]

theorem process_record_bucket_other (p : DataProcessor) (t : Transaction)
    (ty : String) (hne : t.transaction_type ≠ ty) :
    dictLookup (process_record p t).transaction_statistics ty =
      dictLookup p.transaction_statistics ty := by
  unfold process_record
  rw [uts_bucket_other _ _ _ hne, pre_stats]

theorem process_record_statTotal (p : DataProcessor) (t : Transaction)
    (ty : String) :
    statTotal (process_record p t).transaction_statistics ty =
      statTotal p.transaction_statistics ty +
        (if t.transaction_type = ty then t.amount else 0) := by
  by_cases hty : t.transaction_type = ty
  · subst hty
    simp [statTotal, process_record_bucket p t]
  · simp [statTotal, process_record_bucket_other p t ty hty, hty]

theorem process_record_statCount (p : DataProcessor) (t : Transaction)
    (ty : String) :
    statCount (process_record p t).transaction_statistics ty =
      statCount p.transaction_statistics ty +
        (if t.transaction_type = ty then 1 else 0) := by
  by_cases hty : t.transaction_type = ty
  · subst hty
    simp [statCount, process_record_bucket p t]
  · simp [statCount, process_record_bucket_other p t ty hty, hty]

theorem isSuspicious_iff (t : Transaction) :
    isSuspicious t = true ↔
      t.amount > LARGE_TRANSACTION_THRESHOLD ∨
        t.currency ∈ UNCOMMON_CURRENCIES := by
  simp [isSuspicious]

theorem css_suspicious (p : DataProcessor) (t : Transaction) :
    (check_suspicious_transactions p t).suspicious_transactions =
      p.suspicious_transactions ++ (if isSuspicious t then [t] else []) := by
  unfold check_suspicious_transactions
  split
  · next hc =>
      have hb : isSuspicious t = true := (isSuspicious_iff t).mpr hc
      simp [hb]
  · next hc =>
      have hb : ¬ isSuspicious t = true :=
        fun hcontra => hc ((isSuspicious_iff t).mp hcontra)
      simp [hb]

theorem process_record_suspicious (p : DataProcessor) (t : Transaction) :
    (process_record p t).suspicious_transactions =
      p.suspicious_transactions ++ (if isSuspicious t then [t] else []) := by
  unfold process_record
  rw [uts_suspicious, css_suspicious, uas_suspicious]

theorem foldl_suspicious (ts : List Transaction) (p : DataProcessor) :
    (ts.foldl process_record p).suspicious_transactions =
      p.suspicious_transactions ++ suspiciousOf ts := by
  induction ts generalizing p with
  | nil => simp [suspiciousOf]
  | cons hd tl ih =>
      rw [List.foldl_cons, ih, process_record_suspicious]
      by_cases h : isSuspicious hd <;>
        simp [suspiciousOf, List.filter_cons, h]

theorem foldl_statTotal (ts : List Transaction) (p : DataProcessor)
    (ty : String) :
    statTotal ((ts.foldl process_record p).transaction_statistics) ty =
      statTotal p.transaction_statistics ty + sumAmounts ts ty := by
  induction ts generalizing p with
  | nil => simp [sumAmounts]
  | cons hd tl ih =>
      rw [List.foldl_cons, ih, process_record_statTotal]
      have hsum : sumAmounts (hd :: tl) ty =
          (if hd.transaction_type = ty then hd.amount else 0) +
            sumAmounts tl ty := by
        by_cases h : hd.transaction_type = ty <;>
          simp [sumAmounts, List.filter_cons, h]
      rw [hsum, add_assoc]

theorem foldl_statCount (ts : List Transaction) (p : DataProcessor)
    (ty : String) :
    statCount ((ts.foldl process_record p).transaction_statistics) ty =
      statCount p.transaction_statistics ty + countType ts ty := by
  induction ts generalizing p with
  | nil => simp [countType]
  | cons hd tl ih =>
      rw [List.foldl_cons, ih, process_record_statCount]
      have hcnt : countType (hd :: tl) ty =
          (if hd.transaction_type = ty then 1 else 0) + countType tl ty := by
        by_cases h : hd.transaction_type = ty <;>
          simp [countType, List.filter_cons, h, Nat.add_comm]
      rw [hcnt, add_assoc]

theorem summariesInvariant_append_zero (d : List (String × AccountSummary))
    (k : String) (h : summariesInvariant d) :
    summariesInvariant (d ++ [(k, zeroSummary k)]) := by
  intro acct s hs
  rcases dictLookup_append_single_inv _ _ _ _ _ hs with h1 | ⟨_, rfl⟩
  · exact h _ _ h1
  · simp [zeroSummary]

theorem summariesInvariant_modify (d : List (String × AccountSummary))
    (k : String) (f : AccountSummary → AccountSummary)
    (hf : ∀ s, s.balance = s.total_deposits - s.total_withdrawals →
      (f s).balance = (f s).total_deposits - (f s).total_withdrawals)
    (h : summariesInvariant d) :
    summariesInvariant (dictModify d k f) := by
  intro acct s hs
  by_cases hk : k = acct
  · subst hk
    rw [dictLookup_modify_self] at hs
    cases ho : dictLookup d k with
    | none => rw [ho] at hs; cases hs
    | some s0 =>
        rw [ho, Option.map_some'] at hs
        cases hs
        exact hf s0 (h _ _ ho)
  · rw [dictLookup_modify_other _ _ _ _ hk] at hs
    exact h _ _ hs

/-- `update_account_summary` preserves the balance invariant. -/
theorem uas_summariesInvariant (p : DataProcessor) (t : Transaction)
    (h : summariesInvariant p.account_summaries) :
    summariesInvariant (update_account_summary p t).account_summaries := by
  simp only [update_account_summary]
  have inv1 : summariesInvariant
      (if (dictLookup p.account_summaries t.account_number).isNone = true then
        p.account_summaries ++ [(t.account_number, zeroSummary t.account_number)]
       else p.account_summaries) := by
    split
    · exact summariesInvariant_append_zero _ _ h
    · exact h
  split
  · refine summariesInvariant_modify _ _ _ (fun s hs => ?_) inv1
    dsimp only
    rw [hs]
    ring
  · split
    · refine summariesInvariant_modify _ _ _ (fun s hs => ?_) inv1
      dsimp only
      rw [hs]
      ring
    · exact inv1

/-- For a record that is neither a deposit nor a withdrawal, every
existing summary binding survives `update_account_summary`
unchanged. -/
theorem uas_preserves_of_not_dep_wd (p : DataProcessor) (t : Transaction)
    (hty1 : ¬ t.transaction_type = "deposit")
    (hty2 : ¬ t.transaction_type = "withdrawal")
    (acct : String) (s : AccountSummary)
    (hs : dictLookup p.account_summaries acct = some s) :
    dictLookup (update_account_summary p t).account_summaries acct =
      some s := by
  simp only [update_account_summary, if_neg hty1, if_neg hty2]
  split
  · next hnone =>
      by_cases hk : t.account_number = acct
      · subst hk
        rw [Option.isNone_iff_eq_none] at hnone
        rw [hnone] at hs
        cases hs
      · rw [dictLookup_append_other _ _ _ _ hk]
        exact hs
  · exact hs

/-- For a record that is neither a deposit nor a withdrawal and whose
account is new, `update_account_summary` creates the zeroed summary. -/
theorem uas_creates_zero (p : DataProcessor) (t : Transaction)
    (hty1 : ¬ t.transaction_type = "deposit")
    (hty2 : ¬ t.transaction_type = "withdrawal")
    (hnone : dictLookup p.account_summaries t.account_number = Option.none) :
    dictLookup (update_account_summary p t).account_summaries
        t.account_number = some (zeroSummary t.account_number) := by
  simp only [update_account_summary, if_neg hty1, if_neg hty2]
  rw [if_pos (by rw [hnone]; rfl), dictLookup_append_fresh _ _ _ hnone]
  rfl

/-- `update_account_summary` never touches another account's
binding. -/
theorem uas_other_account (p : DataProcessor) (t : Transaction)
    (acct : String) (hk : t.account_number ≠ acct) :
    dictLookup (update_account_summary p t).account_summaries acct =
      dictLookup p.account_summaries acct := by
  simp only [update_account_summary]
  split
  · rw [dictLookup_modify_other _ _ _ _ hk]
    split
    · rw [dictLookup_append_other _ _ _ _ hk]
    · rfl
  · split
    · rw [dictLookup_modify_other _ _ _ _ hk]
      split
      · rw [dictLookup_append_other _ _ _ _ hk]
      · rfl
    · split
      · rw [dictLookup_append_other _ _ _ _ hk]
      · rfl

theorem process_record_account_summaries (p : DataProcessor)
    (t : Transaction) :
    (process_record p t).account_summaries =
      (update_account_summary p t).account_summaries := by
  unfold process_record
  rw [uts_account_summaries, css_account_summaries]

theorem process_record_summariesInvariant (p : DataProcessor)
    (t : Transaction) (h : summariesInvariant p.account_summaries) :
    summariesInvariant (process_record p t).account_summaries := by
  rw [process_record_account_summaries]
  exact uas_summariesInvariant p t h

theorem foldl_summariesInvariant (ts : List Transaction) (p : DataProcessor)
    (h : summariesInvariant p.account_summaries) :
    summariesInvariant (ts.foldl process_record p).account_summaries := by
  induction ts generalizing p with
  | nil => exact h
  | cons hd tl ih =>
      rw [List.foldl_cons]
      exact ih _ (process_record_summariesInvariant p hd h)

theorem process_data_eq_foldl (p : DataProcessor) :
    process_data p = p.transactions.foldl process_record p := rfl

/-- One loop iteration over a record whose account (if it is the
observed one) is a transfer: the observed account's binding is either
still absent or the zeroed summary, it persists once zeroed, and it
becomes the zeroed summary when the record names it. -/
theorem process_record_transfer_zero (p : DataProcessor) (t : Transaction)
    (acct : String) (hall : t.account_number = acct →
      t.transaction_type = "transfer")
    (hP : dictLookup p.account_summaries acct = Option.none ∨
      dictLookup p.account_summaries acct = some (zeroSummary acct)) :
    (dictLookup (process_record p t).account_summaries acct = Option.none ∨
      dictLookup (process_record p t).account_summaries acct =
        some (zeroSummary acct)) ∧
    (dictLookup p.account_summaries acct = some (zeroSummary acct) →
      dictLookup (process_record p t).account_summaries acct =
        some (zeroSummary acct)) ∧
    (t.account_number = acct →
      dictLookup (process_record p t).account_summaries acct =
        some (zeroSummary acct)) := by
  rw [process_record_account_summaries]
  by_cases hk : t.account_number = acct
  · have hty := hall hk
    have hty1 : ¬ t.transaction_type = "deposit" := by rw [hty]; decide
    have hty2 : ¬ t.transaction_type = "withdrawal" := by rw [hty]; decide
    rcases hP with hnone | hzero
    · rw [← hk] at hnone
      have hz := uas_creates_zero p t hty1 hty2 hnone
      rw [hk] at hz
      exact ⟨Or.inr hz, fun _ => hz, fun _ => hz⟩
    · have hz := uas_preserves_of_not_dep_wd p t hty1 hty2 acct _ hzero
      exact ⟨Or.inr hz, fun _ => hz, fun _ => hz⟩
  · rw [uas_other_account p t acct hk]
    exact ⟨hP, fun h => h, fun h => absurd h hk⟩

/-- Folding the loop over a batch in which every record on the observed
account is a transfer: the account's binding stays absent-or-zero,
persists once zeroed, and is the zeroed summary as soon as some record
of the batch names the account. -/
theorem foldl_transfer_zero (ts : List Transaction) (p : DataProcessor)
    (acct : String)
    (hall : ∀ t ∈ ts, t.account_number = acct →
      t.transaction_type = "transfer")
    (hP : dictLookup p.account_summaries acct = Option.none ∨
      dictLookup p.account_summaries acct = some (zeroSummary acct)) :
    (dictLookup (ts.foldl process_record p).account_summaries acct =
        Option.none ∨
      dictLookup (ts.foldl process_record p).account_summaries acct =
        some (zeroSummary acct)) ∧
    (dictLookup p.account_summaries acct = some (zeroSummary acct) →
      dictLookup (ts.foldl process_record p).account_summaries acct =
        some (zeroSummary acct)) ∧
    ((∃ t ∈ ts, t.account_number = acct) →
      dictLookup (ts.foldl process_record p).account_summaries acct =
        some (zeroSummary acct)) := by
  induction ts generalizing p with
  | nil =>
      refine ⟨hP, fun h => h, fun hex => ?_⟩
      obtain ⟨t, ht, _⟩ := hex
      cases ht
  | cons hd tl ih =>
      have hhd := process_record_transfer_zero p hd acct
        (hall hd (List.mem_cons_self hd tl)) hP
      have ihall : ∀ t ∈ tl, t.account_number = acct →
          t.transaction_type = "transfer" :=
        fun t ht => hall t (List.mem_cons_of_mem hd ht)
      have ihres := ih (process_record p hd) ihall hhd.1
      rw [List.foldl_cons]
      refine ⟨ihres.1, fun hz => ihres.2.1 (hhd.2.1 hz), fun hex => ?_⟩
      rcases hex with ⟨t, ht, hacct⟩
      rcases List.mem_cons.mp ht with rfl | htl
      · exact ihres.2.1 (hhd.2.2 hacct)
      · exact ihres.2.2 ⟨t, htl, hacct⟩

/-- Effect of `update_account_summary` on the record's own account when
its summary already exists: deposits add to balance and
`total_deposits`, withdrawals subtract from balance and add to
`total_withdrawals`, any other type changes nothing. -/
theorem uas_effect_existing (p : DataProcessor) (t : Transaction)
    (s : AccountSummary)
    (hs : dictLookup p.account_summaries t.account_number = some s) :
    dictLookup (update_account_summary p t).account_summaries
        t.account_number =
      some (if t.transaction_type = "deposit" then
              { s with balance := s.balance + t.amount
                       total_deposits := s.total_deposits + t.amount }
            else if t.transaction_type = "withdrawal" then
              { s with balance := s.balance - t.amount
                       total_withdrawals := s.total_withdrawals + t.amount }
            else s) := by
  simp only [update_account_summary]
  have hnn : ¬ (dictLookup p.account_summaries t.account_number).isNone
      = true := by
    rw [hs]
    simp
  simp only [if_neg hnn]
  by_cases hdep : t.transaction_type = "deposit"
  · rw [if_pos hdep, if_pos hdep, dictLookup_modify_self, hs,
      Option.map_some']
  · rw [if_neg hdep, if_neg hdep]
    by_cases hwd : t.transaction_type = "withdrawal"
    · rw [if_pos hwd, if_pos hwd, dictLookup_modify_self, hs,
        Option.map_some']
    · rw [if_neg hwd, if_neg hwd]
      exact hs

/-- C1 (counterexample). The claim says `get_average_transaction_amount`
returns `0` and never raises when the type has no statistics bucket; on
a freshly constructed processor, whose statistics dict is empty, the
call raises `KeyError` (modelled `none`) instead of returning `0`. -/
theorem C1_average_absent_counterexample :
    get_average_transaction_amount (DataProcessor.init []) "deposit" =
        Option.none ∧
      get_average_transaction_amount (DataProcessor.init []) "deposit" ≠
        some 0 := by
  refine ⟨rfl, fun h => ?_⟩
  rw [show get_average_transaction_amount (DataProcessor.init [])
      "deposit" = Option.none from rfl] at h
  exact Option.noConfusion h

/-- C1 (amended). `get_average_transaction_amount` returns `0` when the
type's bucket exists with `transaction_count = 0` and
`total_amount / transaction_count` when the count is positive, but it
raises `KeyError` (modelled `none`) when the bucket is absent, rather
than returning `0`. -/
theorem C1_average_amended (p : DataProcessor) (ty : String) :
    (∀ s, dictLookup p.transaction_statistics ty = some s →
        s.transaction_count = 0 →
        get_average_transaction_amount p ty = some 0) ∧
    (∀ s, dictLookup p.transaction_statistics ty = some s →
        s.transaction_count ≠ 0 →
        get_average_transaction_amount p ty =
          some (s.total_amount / (s.transaction_count : ℚ))) ∧
    (dictLookup p.transaction_statistics ty = Option.none →
      get_average_transaction_amount p ty = Option.none) := by
  refine ⟨fun s hs h0 => ?_, fun s hs h0 => ?_, fun hs => ?_⟩
  · unfold get_average_transaction_amount
    rw [hs]
    simp [h0]
  · unfold get_average_transaction_amount
    rw [hs]
    simp [h0]
  · unfold get_average_transaction_amount
    rw [hs]

/-- Witness for C1's amended theorem: a fresh processor's statistics
have no `withdrawal` bucket and the call yields `none`; after one
deposit of 1000 the `deposit` average is `1000 / 1`. -/
theorem C1_average_amended_witness :
    get_average_transaction_amount (DataProcessor.init []) "withdrawal" =
        Option.none ∧
      get_average_transaction_amount
          (process_data (DataProcessor.init [sampleDeposit])) "deposit" =
        some ((1000 : ℚ) / ((1 : ℕ) : ℚ)) :=
  ⟨(C1_average_amended (DataProcessor.init []) "withdrawal").2.2 rfl,
   (C1_average_amended (process_data (DataProcessor.init [sampleDeposit]))
       "deposit").2.1
     { total_amount := 1000, transaction_count := 1 }
     (by
       norm_num [process_data, DataProcessor.init, process_record,
         update_account_summary, check_suspicious_transactions,
         update_transaction_statistics, dictLookup, dictModify, sampleDeposit,
         LARGE_TRANSACTION_THRESHOLD, UNCOMMON_CURRENCIES])
     (by decide)⟩

/-- C2. `main` calls `DataProcessor(transactions, logging_level=...,
logging_format=..., log_file=...)`, but `DataProcessor.__init__` accepts
only `transactions`; the keyword arguments do not bind, so the
construction raises `TypeError` and the run never reaches
`process_data`. -/
theorem C2_main_construction_fails : mainDataProcessorCallOk = false := by
  decide

/-- C3. The balance equation `balance = total_deposits -
total_withdrawals`: it is preserved by every single
`update_account_summary` call, it holds for every account after
`process_data` on a fresh processor, and each record moves its own
account's fields exactly as claimed (deposits add to balance and
`total_deposits`, withdrawals subtract from balance and add to
`total_withdrawals`, transfers change none of the three fields). -/
theorem C3_balance_invariant :
    (∀ (p : DataProcessor) (t : Transaction),
        summariesInvariant p.account_summaries →
        summariesInvariant (update_account_summary p t).account_summaries) ∧
    (∀ (ts : List Transaction) (acct : String) (s : AccountSummary),
        dictLookup (process_data (DataProcessor.init ts)).account_summaries
            acct = some s →
        s.balance = s.total_deposits - s.total_withdrawals) ∧
    (∀ (p : DataProcessor) (t : Transaction) (s : AccountSummary),
        dictLookup p.account_summaries t.account_number = some s →
        dictLookup (update_account_summary p t).account_summaries
            t.account_number =
          some (if t.transaction_type = "deposit" then
                  { s with balance := s.balance + t.amount
                           total_deposits := s.total_deposits + t.amount }
                else if t.transaction_type = "withdrawal" then
                  { s with balance := s.balance - t.amount
                           total_withdrawals :=
                             s.total_withdrawals + t.amount }
                else s)) := by
  refine ⟨uas_summariesInvariant, fun ts acct s hs => ?_, uas_effect_existing⟩
  have h0 : summariesInvariant (DataProcessor.init ts).account_summaries := by
    intro a s' h'
    simp [DataProcessor.init, dictLookup] at h'
  have hinv := foldl_summariesInvariant ts (DataProcessor.init ts) h0
  rw [process_data_eq_foldl] at hs
  exact hinv acct s hs

/-- Witness for C3: the summary produced by one deposit of 1000 on a
fresh processor satisfies the balance equation. -/
theorem C3_balance_invariant_witness :
    sampleDepositSummary.balance =
      sampleDepositSummary.total_deposits -
        sampleDepositSummary.total_withdrawals :=
  C3_balance_invariant.2.1 [sampleDeposit] "1001" sampleDepositSummary
    (by
      norm_num [process_data, DataProcessor.init, process_record,
        update_account_summary, check_suspicious_transactions,
        update_transaction_statistics, dictLookup, dictModify, sampleDeposit,
        sampleDepositSummary, zeroSummary, LARGE_TRANSACTION_THRESHOLD,
        UNCOMMON_CURRENCIES])

/-- C4. A record is appended to the suspicious list iff its amount is
strictly greater than 10000 or its currency is XRP or LTC; amount
exactly 10000 with a common currency is not flagged, and XRP/LTC is
flagged at any amount. -/
theorem C4_suspicious_rule (p : DataProcessor) (t : Transaction) :
    (check_suspicious_transactions p t).suspicious_transactions =
      p.suspicious_transactions ++
        (if t.amount > 10000 ∨ t.currency ∈ ["XRP", "LTC"] then [t]
         else []) := by
  rw [css_suspicious]
  by_cases h : isSuspicious t = true
  · have hc : t.amount > 10000 ∨ t.currency ∈ ["XRP", "LTC"] :=
      (isSuspicious_iff t).mp h
    rw [if_pos h, if_pos hc]
  · have hc : ¬ (t.amount > 10000 ∨ t.currency ∈ ["XRP", "LTC"]) :=
      fun hcontra => h ((isSuspicious_iff t).mpr hcontra)
    rw [if_neg h, if_neg hc]

/-- C5. Processing one transfer record changes no existing account
summary binding (so balance, `total_deposits` and `total_withdrawals`
are all untouched), while the `transfer` statistics bucket still gains
the record's amount and one count. -/
theorem C5_transfer_frame (p : DataProcessor) (t : Transaction)
    (hty : t.transaction_type = "transfer") :
    (∀ acct s, dictLookup p.account_summaries acct = some s →
        dictLookup (process_record p t).account_summaries acct = some s) ∧
    dictLookup (process_record p t).transaction_statistics "transfer" =
      some { total_amount :=
               statTotal p.transaction_statistics "transfer" + t.amount
             transaction_count :=
               statCount p.transaction_statistics "transfer" + 1 } := by
  constructor
  · intro acct s hs
    rw [process_record_account_summaries]
    exact uas_preserves_of_not_dep_wd p t (by rw [hty]; decide)
      (by rw [hty]; decide) acct s hs
  · have h := process_record_bucket p t
    rw [hty] at h
    exact h

/-- Witness for C5: a transfer of 5 on a fresh processor leaves the
(empty) summaries with no flagged change and creates the `transfer`
bucket at `0 + 5` and `0 + 1`. -/
theorem C5_transfer_frame_witness :
    dictLookup (process_record (DataProcessor.init [])
          sampleTransfer).transaction_statistics "transfer" =
      some { total_amount :=
               statTotal (DataProcessor.init []).transaction_statistics
                   "transfer" + sampleTransfer.amount
             transaction_count :=
               statCount (DataProcessor.init []).transaction_statistics
                   "transfer" + 1 } :=
  (C5_transfer_frame (DataProcessor.init []) sampleTransfer rfl).2

/-- C6. `update_transaction_statistics` always gives the record's type
bucket exactly `+amount` on `total_amount` and `+1` on
`transaction_count` (a previously absent bucket starts from zero), and
after processing a whole batch each type's count equals the number of
records of that type. -/
theorem C6_stats_increment :
    (∀ (p : DataProcessor) (t : Transaction),
        dictLookup
            (update_transaction_statistics p t).transaction_statistics
            t.transaction_type =
          some { total_amount :=
                   statTotal p.transaction_statistics t.transaction_type +
                     t.amount
                 transaction_count :=
                   statCount p.transaction_statistics t.transaction_type +
                     1 }) ∧
    (∀ (ts : List Transaction) (ty : String),
        statCount
            (process_data (DataProcessor.init ts)).transaction_statistics
            ty = countType ts ty) := by
  refine ⟨uts_bucket, fun ts ty => ?_⟩
  have h := foldl_statCount ts (DataProcessor.init ts) ty
  rw [show statCount (DataProcessor.init ts).transaction_statistics ty = 0
      from rfl, Nat.zero_add] at h
  rw [process_data_eq_foldl]
  exact h

/-- C7. Running `process_data` twice on one instance doubles every
statistics bucket's `total_amount` and `transaction_count` and appends a
second copy of the suspicious list: state accumulates and is never
reset. -/
theorem C7_reprocess_doubles (ts : List Transaction) :
    (∀ ty : String,
        statTotal (process_data (process_data
              (DataProcessor.init ts))).transaction_statistics ty =
          2 * statTotal
              (process_data (DataProcessor.init ts)).transaction_statistics
              ty ∧
        statCount (process_data (process_data
              (DataProcessor.init ts))).transaction_statistics ty =
          2 * statCount
              (process_data (DataProcessor.init ts)).transaction_statistics
              ty) ∧
    (process_data (process_data
          (DataProcessor.init ts))).suspicious_transactions =
      (process_data (DataProcessor.init ts)).suspicious_transactions ++
        (process_data (DataProcessor.init ts)).suspicious_transactions := by
  have htr : (process_data (DataProcessor.init ts)).transactions = ts := by
    rw [process_data_eq_foldl]
    exact foldl_process_record_transactions ts (DataProcessor.init ts)
  have hsecond : process_data (process_data (DataProcessor.init ts)) =
      ts.foldl process_record (process_data (DataProcessor.init ts)) := by
    rw [process_data_eq_foldl (process_data (DataProcessor.init ts)), htr]
  have hfirst_total : ∀ ty,
      statTotal (process_data (DataProcessor.init ts)).transaction_statistics
          ty = sumAmounts ts ty := by
    intro ty
    have h := foldl_statTotal ts (DataProcessor.init ts) ty
    rw [show statTotal (DataProcessor.init ts).transaction_statistics ty = 0
        from rfl, zero_add] at h
    rw [process_data_eq_foldl]
    exact h
  have hfirst_count : ∀ ty,
      statCount (process_data (DataProcessor.init ts)).transaction_statistics
          ty = countType ts ty := by
    intro ty
    have h := foldl_statCount ts (DataProcessor.init ts) ty
    rw [show statCount (DataProcessor.init ts).transaction_statistics ty = 0
        from rfl, Nat.zero_add] at h
    rw [process_data_eq_foldl]
    exact h
  have hfirst_susp :
      (process_data (DataProcessor.init ts)).suspicious_transactions =
        suspiciousOf ts := by
    have h := foldl_suspicious ts (DataProcessor.init ts)
    rw [process_data_eq_foldl]
    simpa [DataProcessor.init] using h
  refine ⟨fun ty => ⟨?_, ?_⟩, ?_⟩
  · rw [hsecond, foldl_statTotal ts (process_data (DataProcessor.init ts)) ty,
      hfirst_total ty]
    ring
  · rw [hsecond, foldl_statCount ts (process_data (DataProcessor.init ts)) ty,
      hfirst_count ty]
    ring
  · rw [hsecond, foldl_suspicious ts (process_data (DataProcessor.init ts)),
      hfirst_susp]

/-- C8. Over one pass the suspicious list is only appended to: the
result is the previous list followed by exactly the flagged records of
the input, one occurrence per processed record (even when a record
matches both rules) and in input order. -/
theorem C8_suspicious_append_order (p : DataProcessor) :
    (process_data p).suspicious_transactions =
      p.suspicious_transactions ++ suspiciousOf p.transactions := by
  rw [process_data_eq_foldl]
  exact foldl_suspicious p.transactions p

/-- C9. With the class-level `VALIDATION_RULES`, `data_validation`
returns exactly the entries, in input order, that are dicts with all
seven required keys, an `Amount` parsing to a non-negative number, and
a valid transaction type; all other entries are silently dropped. -/
theorem C9_validation_filters (ts : List RawEntry) :
    data_validation ts VALIDATION_RULES = ts.filter isValidRecordSpec := by
  induction ts with
  | nil => rfl
  | cons hd tl ih =>
      rw [List.filter_cons]
      cases hd with
      | nondict =>
          simp only [data_validation, ih]
          rw [show isValidRecordSpec RawEntry.nondict = false from rfl]
          simp
      | dict kvs =>
          simp only [data_validation, ih]
          by_cases hk : (VALIDATION_RULES.required_keys.all
              fun k => (dictLookup kvs k).isSome) = true
          · rw [if_neg (not_not_intro hk)]
            cases hf : pyFloat (pyGet kvs "Amount") with
            | none =>
                have hv : isValidRecordSpec (RawEntry.dict kvs) = false := by
                  simp [isValidRecordSpec, hf]
                rw [hv]
                simp
            | some a =>
                by_cases ha : a < 0
                · have hv : isValidRecordSpec (RawEntry.dict kvs) = false := by
                    simp [isValidRecordSpec, hf, not_le.mpr ha]
                  rw [hv]
                  simp [ha]
                · by_cases hm : pyStrMem (pyGet kvs "Transaction type")
                      VALIDATION_RULES.valid_transaction_types = true
                  · have hv : isValidRecordSpec (RawEntry.dict kvs) = true := by
                      simp [isValidRecordSpec, hf, hk, hm, not_lt.mp ha]
                    rw [hv]
                    simp [ha, hm]
                  · have hm' : pyStrMem (pyGet kvs "Transaction type")
                        VALIDATION_RULES.valid_transaction_types = false :=
                      Bool.eq_false_iff.mpr hm
                    have hv : isValidRecordSpec (RawEntry.dict kvs) = false := by
                      simp [isValidRecordSpec, hf, hm']
                    rw [hv]
                    simp [ha, hm]
          · have hk' : (VALIDATION_RULES.required_keys.all
                fun k => (dictLookup kvs k).isSome) = false :=
              Bool.eq_false_iff.mpr hk
            have hv : isValidRecordSpec (RawEntry.dict kvs) = false := by
              simp [isValidRecordSpec, hk']
            rw [if_pos hk, hv]
            simp

/-- C10. An account seen only in transfer records still gets a summary:
after `process_data`, an account named by some record of the batch all
of whose records are transfers is bound to the zeroed summary (balance,
`total_deposits`, `total_withdrawals` all `0`). -/
theorem C10_transfer_only_zero (ts : List Transaction) (acct : String)
    (hall : ∀ t ∈ ts, t.account_number = acct →
      t.transaction_type = "transfer")
    (hex : ∃ t ∈ ts, t.account_number = acct) :
    dictLookup (process_data (DataProcessor.init ts)).account_summaries
        acct = some (zeroSummary acct) := by
  rw [process_data_eq_foldl]
  exact (foldl_transfer_zero ts (DataProcessor.init ts) acct hall
    (Or.inl rfl)).2.2 hex

/-- Witness for C10: one transfer on account 1001 leaves that account
bound to the all-zero summary. -/
theorem C10_transfer_only_zero_witness :
    dictLookup (process_data
          (DataProcessor.init [sampleTransfer])).account_summaries "1001" =
      some (zeroSummary "1001") :=
  C10_transfer_only_zero [sampleTransfer] "1001"
    (fun t ht _ => by
      rcases List.mem_cons.mp ht with rfl | h
      · rfl
      · cases h)
    ⟨sampleTransfer, List.mem_cons_self _ _, rfl⟩

end FDP
